import Mathlib

set_option maxHeartbeats 1000000
set_option maxRecDepth 8000

namespace L3gd20

/-- A sensor reading that captures the notion of recent and outdated information
(src/reading.rs, enum Reading over a carrier type T). -/
inductive Reading (T : Type) where
  | Stale : T → Reading T
  | Fresh : T → Reading T
  | Overrun : T → Reading T
deriving DecidableEq

namespace Reading

variable {T : Type}

/-- Indicates whether this is a stale reading (src/reading.rs, Reading::stale). -/
def stale : Reading T → Bool
  | Stale _ => true
  | _ => false

/-- Indicates whether this is a fresh reading (src/reading.rs, Reading::fresh). -/
def fresh : Reading T → Bool
  | Fresh _ => true
  | _ => false

/-- Indicates whether this is an overrun reading (src/reading.rs, Reading::overrun). -/
def overrun : Reading T → Bool
  | Overrun _ => true
  | _ => false

/-- Indicates whether this is a fresh or an overrun reading
(src/reading.rs, Reading::fresh_or_overrun). -/
def fresh_or_overrun (r : Reading T) : Bool :=
  r.fresh || r.overrun

/-- Consumes the reading and returns the inner value
(src/reading.rs, Reading::into_inner and the Deref pass-through). -/
def into_inner : Reading T → T
  | Stale x => x
  | Fresh x => x
  | Overrun x => x

/-- Modelled from the spec: Reading::map is called by SensorData::new
(src/sensor_data.rs lines 27-29) but its definition is missing from the provided
sources. The spec section 4.3 gives the classification contract:
classify(false,false)=Stale, classify(true,false)=Fresh, classify(_,true)=Overrun
for all boolean combinations, overrun taking precedence over dataAvailable. -/
def map (value : T) (dataAvailable : Bool) (overrun : Bool) : Reading T :=
  if overrun then Reading.Overrun value
  else if dataAvailable then Reading.Fresh value
  else Reading.Stale value

end Reading

/-- Status register of the external l3gd20-registers collaborator, as consumed by
SensorData::new: one byte of per-axis data-available and overrun flags. The bit
layout follows the device datasheet (XDA bit 0, YDA bit 1, ZDA bit 2, ZYXDA bit 3,
X overrun bit 4, Y overrun bit 5, Z overrun bit 6, ZYX overrun bit 7). -/
structure StatusRegister where
  bits : Nat
deriving DecidableEq

namespace StatusRegister

/-- Decodes a status register from one byte (external from_bits). -/
def from_bits (b : Nat) : StatusRegister := ⟨b % 256⟩

/-- New data available on the X axis. -/
def x_da (s : StatusRegister) : Bool := s.bits.testBit 0

/-- New data available on the Y axis. -/
def y_da (s : StatusRegister) : Bool := s.bits.testBit 1

/-- New data available on the Z axis. -/
def z_da (s : StatusRegister) : Bool := s.bits.testBit 2

/-- Overrun flag of the X axis. -/
def x_overrun (s : StatusRegister) : Bool := s.bits.testBit 4

/-- Overrun flag of the Y axis. -/
def y_overrun (s : StatusRegister) : Bool := s.bits.testBit 5

/-- Overrun flag of the Z axis. -/
def z_overrun (s : StatusRegister) : Bool := s.bits.testBit 6

end StatusRegister

/-- XYZ triple of signed 16-bit components (src/i16x3.rs, struct I16x3);
the components are modelled as integers in the signed 16-bit range. -/
structure I16x3 where
  x : Int
  y : Int
  z : Int
deriving DecidableEq

/-- Creates a new instance of the I16x3 struct from its components
(src/i16x3.rs, I16x3::new). -/
def I16x3.new (x y z : Int) : I16x3 := ⟨x, y, z⟩

/-- Signed 16-bit value assembled from a low byte and a high byte: the addition
of an OutHigh register and an OutLow register of the external register map crate
(used in lib.rs as xhi + xlo and friends) yields the i16 whose high byte is the
high register and whose low byte is the low register. -/
def i16FromBytes (lo hi : Nat) : Int :=
  let u : Nat := (hi % 256) * 256 + lo % 256
  if u < 32768 then (u : Int) else (u : Int) - 65536

/-- Sensor data (src/sensor_data.rs, struct SensorData). -/
structure SensorData where
  temperature : Nat
  x : Reading Int
  y : Reading Int
  z : Reading Int
deriving DecidableEq

namespace SensorData

/-- Maps sensor readings into a SensorData structure
(src/sensor_data.rs, SensorData::new). -/
def new (temperature : Nat) (x y z : Int) (status : StatusRegister) : SensorData :=
  { temperature := temperature
    x := Reading.map x status.x_da status.x_overrun
    y := Reading.map y status.y_da status.y_overrun
    z := Reading.map z status.z_da status.z_overrun }

/-- Indicates whether any reading is stale (src/sensor_data.rs, SensorData::stale):
the source expression is x.stale() || y.stale() || z.stale(). -/
def stale (s : SensorData) : Bool :=
  s.x.stale || s.y.stale || s.z.stale

/-- Documented as: indicates whether all readings are fresh
(src/sensor_data.rs, SensorData::fresh). The source expression is literally
x.fresh() && y.stale() || z.stale(), with Rust precedence (&& before ||). -/
def fresh (s : SensorData) : Bool :=
  s.x.fresh && s.y.stale || s.z.stale

/-- Documented as: indicates whether all readings are fresh or overrun
(src/sensor_data.rs, SensorData::fresh_or_overrun). The source expression is
literally x.fresh_or_overrun() && y.fresh_or_overrun() || z.fresh_or_overrun(). -/
def fresh_or_overrun (s : SensorData) : Bool :=
  s.x.fresh_or_overrun && s.y.fresh_or_overrun || s.z.fresh_or_overrun

/-- Documented as: indicates whether this is an overrun reading
(src/sensor_data.rs, SensorData::overrun). The source expression is literally
x.overrun() && y.overrun() || z.overrun(). -/
def overrun (s : SensorData) : Bool :=
  s.x.overrun && s.y.overrun || s.z.overrun

end SensorData

namespace L3GD20SPI

/-- Bit flag for a read command (lib.rs, const READ). -/
def READ : Nat := 0b10000000

/-- Bit flag for a write command (lib.rs, const WRITE). -/
def WRITE : Nat := 0b00000000

/-- Bit flag for a multi-address command (lib.rs, const MULTI). -/
def MULTI : Nat := 0b01000000

/-- Bit flag for a single-address command (lib.rs, const SINGLE). -/
def SINGLE : Nat := 0b00000000

/-- Mask for register addresses (lib.rs, const REG_ADDR_MASK). -/
def REG_ADDR_MASK : Nat := 0b00111111

/-- Creates a read command for a given address, without auto-increment
(lib.rs, read_single_cmd). -/
def read_single_cmd (address : Nat) : Nat :=
  READ ||| SINGLE ||| (address &&& REG_ADDR_MASK)

/-- Creates a read command for a given address with address auto-increment
(lib.rs, read_multi_cmd). -/
def read_multi_cmd (address : Nat) : Nat :=
  READ ||| MULTI ||| (address &&& REG_ADDR_MASK)

/-- Creates a write command for a given address, without auto-increment
(lib.rs, write_single_cmd). -/
def write_single_cmd (address : Nat) : Nat :=
  WRITE ||| SINGLE ||| (address &&& REG_ADDR_MASK)

/-- Chip-select events emitted by the scoped select guard of the external
chip-select collaborator: the guard asserts the line when acquired and releases
it when dropped, on every exit path of the enclosing operation. -/
inductive CsEvent where
  | select : CsEvent
  | deselect : CsEvent
deriving DecidableEq

/-- Observable outcome of one driver operation against the external SPI bus:
the returned value or propagated transport error, the transmit buffers issued to
the bus in order, and the chip-select events in order. -/
structure BusResult (ε α : Type) where
  result : Except ε α
  sent : List (List Nat)
  cs : List CsEvent

/-- Register address of the WHO_AM_I register of the external register map. -/
def WHO_AM_I_ADDR : Nat := 0x0F

/-- Register address of the temperature register (lib.rs comment: 0x26). -/
def TEMPERATURE_ADDR : Nat := 0x26

/-- Register address of the OUT_X_L register (lib.rs comment: 0x28). -/
def OUT_X_LOW_ADDR : Nat := 0x28

variable {ε : Type}

/-- Reads a single register (lib.rs, read_register): acquire the select guard,
issue one transfer of the buffer [command, 0], release the guard on every path,
and return the single reply byte at index 1, skipping the echoed command byte.
The external register value is represented by the raw byte handed to from_bits. -/
def read_register (transfer : List Nat → Except ε (List Nat)) (address : Nat) :
    BusResult ε Nat :=
  match transfer [read_single_cmd address, 0] with
  | Except.error e =>
    ⟨Except.error e, [[read_single_cmd address, 0]], [CsEvent.select, CsEvent.deselect]⟩
  | Except.ok reply =>
    ⟨Except.ok (reply.getD 1 0), [[read_single_cmd address, 0]],
      [CsEvent.select, CsEvent.deselect]⟩

/-- Writes a single register (lib.rs, write_register): acquire the select guard,
issue one transfer of the buffer [command, byte] and release the guard on every
path. -/
def write_register (transfer : List Nat → Except ε (List Nat)) (address byte : Nat) :
    BusResult ε Unit :=
  match transfer [write_single_cmd address, byte] with
  | Except.error e =>
    ⟨Except.error e, [[write_single_cmd address, byte]], [CsEvent.select, CsEvent.deselect]⟩
  | Except.ok _ =>
    ⟨Except.ok (), [[write_single_cmd address, byte]], [CsEvent.select, CsEvent.deselect]⟩

/-- Identifies the chip by querying the WHO_AM_I register (lib.rs, identify):
a mismatching identification is reported as Ok false, never as an error. The
ident field of the external WhoAmI register is the full register byte. -/
def identify (transfer : List Nat → Except ε (List Nat)) : BusResult ε Bool :=
  match read_register transfer WHO_AM_I_ADDR with
  | ⟨Except.error e, sent, cs⟩ => ⟨Except.error e, sent, cs⟩
  | ⟨Except.ok b, sent, cs⟩ =>
    if b % 256 = 0b11010100 then ⟨Except.ok true, sent, cs⟩
    else ⟨Except.ok false, sent, cs⟩

/-- Fetches X, Y and Z axis data (lib.rs, xyz_raw): one transfer of the 7-byte
buffer [read_multi_cmd OUT_X_LOW_ADDR, 0, 0, 0, 0, 0, 0] under one select guard;
reply bytes 1 to 6 are XL, XH, YL, YH, ZL, ZH and each axis is the signed 16-bit
sum of its high and low register bytes. -/
def xyz_raw (transfer : List Nat → Except ε (List Nat)) : BusResult ε I16x3 :=
  match transfer [read_multi_cmd OUT_X_LOW_ADDR, 0, 0, 0, 0, 0, 0] with
  | Except.error e =>
    ⟨Except.error e, [[read_multi_cmd OUT_X_LOW_ADDR, 0, 0, 0, 0, 0, 0]],
      [CsEvent.select, CsEvent.deselect]⟩
  | Except.ok r =>
    ⟨Except.ok (I16x3.new (i16FromBytes (r.getD 1 0) (r.getD 2 0))
        (i16FromBytes (r.getD 3 0) (r.getD 4 0))
        (i16FromBytes (r.getD 5 0) (r.getD 6 0))),
      [[read_multi_cmd OUT_X_LOW_ADDR, 0, 0, 0, 0, 0, 0]],
      [CsEvent.select, CsEvent.deselect]⟩

/-- Fetches all data off the sensor (lib.rs, data_raw): one transfer of the
9-byte buffer [read_multi_cmd TEMPERATURE_ADDR, 0, 0, 0, 0, 0, 0, 0, 0] under
one select guard; reply bytes 1 to 8 are temperature, status, XL, XH, YL, YH,
ZL, ZH, and the decoded values go through SensorData.new. The external
temperature register temp field is the full register byte. -/
def data_raw (transfer : List Nat → Except ε (List Nat)) : BusResult ε SensorData :=
  match transfer [read_multi_cmd TEMPERATURE_ADDR, 0, 0, 0, 0, 0, 0, 0, 0] with
  | Except.error e =>
    ⟨Except.error e, [[read_multi_cmd TEMPERATURE_ADDR, 0, 0, 0, 0, 0, 0, 0, 0]],
      [CsEvent.select, CsEvent.deselect]⟩
  | Except.ok r =>
    ⟨Except.ok (SensorData.new (r.getD 1 0 % 256)
        (i16FromBytes (r.getD 3 0) (r.getD 4 0))
        (i16FromBytes (r.getD 5 0) (r.getD 6 0))
        (i16FromBytes (r.getD 7 0) (r.getD 8 0))
        (StatusRegister.from_bits (r.getD 2 0))),
      [[read_multi_cmd TEMPERATURE_ADDR, 0, 0, 0, 0, 0, 0, 0, 0]],
      [CsEvent.select, CsEvent.deselect]⟩

end L3GD20SPI

/-- Full-scale selection of control register 4 of the external register map
(Sensitivity in the register crate, four recognized settings). -/
inductive Sensitivity where
  | D250 : Sensitivity
  | D500 : Sensitivity
  | D2000 : Sensitivity
  | D2000_11 : Sensitivity
deriving DecidableEq

/-- Output data rate selection of control register 1 of the external register
map. -/
inductive OutputDataRate where
  | Hz95 : OutputDataRate
  | Hz190 : OutputDataRate
  | Hz380 : OutputDataRate
  | Hz760 : OutputDataRate
deriving DecidableEq

/-- Bandwidth selection of control register 1 of the external register map. -/
inductive Bandwidth where
  | Narrowest : Bandwidth
  | Narrow : Bandwidth
  | Medium : Bandwidth
  | Wide : Bandwidth
deriving DecidableEq

/-- Scale and noise characteristics of the sensor (src/characteristics.rs,
struct Characteristics); the numeric fields are modelled as exact rationals
standing for the float literals of the source. -/
structure Characteristics where
  full_scale : Nat
  sensitivity : ℚ
  zero_rate_noise : ℚ
  zero_rate_level_temp : ℚ
  rate_noise_density : ℚ
deriving DecidableEq

/-- Obtains sensor characteristics (lib.rs, characteristics): the pure
computation applied after the bus reads fetched the raw temperature byte, the
output data rate and bandwidth from control register 1, and the full scale from
control register 4. Every literal of the source is carried verbatim as an exact
rational. -/
def characteristics (fs : Sensitivity) (odr : OutputDataRate) (bw : Bandwidth)
    (data : Nat) : Characteristics :=
  { full_scale :=
      match fs with
      | Sensitivity.D250 => 250
      | Sensitivity.D500 => 500
      | Sensitivity.D2000 => 2000
      | Sensitivity.D2000_11 => 2000
    sensitivity :=
      match fs with
      | Sensitivity.D250 => 8.75 * 0.001
      | Sensitivity.D500 => 17.5 * 0.001
      | Sensitivity.D2000 => 70.0 * 0.001
      | Sensitivity.D2000_11 => 70.0 * 0.001
    zero_rate_noise :=
      match fs with
      | Sensitivity.D250 => 10.0
      | Sensitivity.D500 => 15.0
      | Sensitivity.D2000 => 75.0
      | Sensitivity.D2000_11 => 75.0
    zero_rate_level_temp :=
      match fs with
      | Sensitivity.D250 => 0.03 * (data : ℚ)
      | Sensitivity.D500 => 0.03 * (data : ℚ)
      | Sensitivity.D2000 => 0.04 * (data : ℚ)
      | Sensitivity.D2000_11 => 0.05 * (data : ℚ)
    rate_noise_density := 0.03 *
      match bw, odr with
      | Bandwidth.Narrowest, OutputDataRate.Hz95 => 3.5355339059327378
      | Bandwidth.Narrowest, OutputDataRate.Hz190 => 3.5355339059327378
      | Bandwidth.Narrowest, OutputDataRate.Hz380 => 4.47213595499958
      | Bandwidth.Narrowest, OutputDataRate.Hz760 => 5.477225575051661
      | Bandwidth.Narrow, OutputDataRate.Hz95 => 5.0
      | Bandwidth.Narrow, OutputDataRate.Hz190 => 5.0
      | Bandwidth.Narrow, OutputDataRate.Hz380 => 25.0
      | Bandwidth.Narrow, OutputDataRate.Hz760 => 5.916079783099616
      | Bandwidth.Medium, OutputDataRate.Hz95 => 5.0
      | Bandwidth.Medium, OutputDataRate.Hz190 => 7.0710678118654755
      | Bandwidth.Medium, OutputDataRate.Hz380 => 7.0710678118654755
      | Bandwidth.Medium, OutputDataRate.Hz760 => 7.0710678118654755
      | Bandwidth.Wide, OutputDataRate.Hz95 => 5.0
      | Bandwidth.Wide, OutputDataRate.Hz190 => 8.366600265340756
      | Bandwidth.Wide, OutputDataRate.Hz380 => 10.0
      | Bandwidth.Wide, OutputDataRate.Hz760 => 10.0 }

end L3gd20

namespace L3gd20

/-- Claim C1: the source of SensorData::fresh, documented as all readings fresh,
evaluated at the failing input (x Fresh, y Fresh, z Stale): it returns true even
though not all three axes are Fresh, contradicting its own documentation. -/
theorem claim_C1_fresh_code_bug :
    SensorData.fresh
      (SensorData.mk 0 (Reading.Fresh 0) (Reading.Fresh 0) (Reading.Stale 0)) = true ∧
    ¬((Reading.Fresh (0 : Int)).fresh = true ∧ (Reading.Fresh (0 : Int)).fresh = true ∧
      (Reading.Stale (0 : Int)).fresh = true) := by
  decide

/-- Claim C2: the source of SensorData::overrun, intended as all three axes
Overrun, evaluated at the failing input (x Stale, y Stale, z Overrun): it returns
true even though only the z axis is Overrun, contradicting the stated intent of a
universal fold across the three axes. -/
theorem claim_C2_overrun_code_bug :
    SensorData.overrun
      (SensorData.mk 0 (Reading.Stale 0) (Reading.Stale 0) (Reading.Overrun 0)) = true ∧
    ¬((Reading.Stale (0 : Int)).overrun = true ∧ (Reading.Stale (0 : Int)).overrun = true ∧
      (Reading.Overrun (0 : Int)).overrun = true) := by
  decide

/-- Claim C3: the per-axis freshness classification Reading.map, as used by
SensorData.new, is a total function of the two status bits: (false,false) gives
Stale, (true,false) gives Fresh, and any combination with overrun set gives
Overrun; SensorData.new applies it to each axis with that axis status bits. -/
theorem claim_C3_classification_total :
    (∀ (v : Int) (da : Bool),
      Reading.map v false false = Reading.Stale v ∧
      Reading.map v true false = Reading.Fresh v ∧
      Reading.map v da true = Reading.Overrun v) ∧
    (∀ (t : Nat) (x y z : Int) (st : StatusRegister),
      SensorData.new t x y z st =
        SensorData.mk t (Reading.map x st.x_da st.x_overrun)
          (Reading.map y st.y_da st.y_overrun)
          (Reading.map z st.z_da st.z_overrun)) := by
  constructor
  · intro v da
    refine ⟨rfl, rfl, ?_⟩
    cases da <;> rfl
  · intro t x y z st
    rfl

/-- Claim C4: for every 8-bit address and every intent the codec yields exactly
one byte; bit 7 is 1 for read and 0 for write, bit 6 is 1 for multi and 0 for
single, and the low six bits are the address masked to six bits. -/
theorem claim_C4_command_codec :
    ∀ a < 256,
      (L3GD20SPI.read_single_cmd a < 256 ∧
        (L3GD20SPI.read_single_cmd a).testBit 7 = true ∧
        (L3GD20SPI.read_single_cmd a).testBit 6 = false ∧
        L3GD20SPI.read_single_cmd a % 64 = a % 64) ∧
      (L3GD20SPI.read_multi_cmd a < 256 ∧
        (L3GD20SPI.read_multi_cmd a).testBit 7 = true ∧
        (L3GD20SPI.read_multi_cmd a).testBit 6 = true ∧
        L3GD20SPI.read_multi_cmd a % 64 = a % 64) ∧
      (L3GD20SPI.write_single_cmd a < 256 ∧
        (L3GD20SPI.write_single_cmd a).testBit 7 = false ∧
        (L3GD20SPI.write_single_cmd a).testBit 6 = false ∧
        L3GD20SPI.write_single_cmd a % 64 = a % 64) := by
  decide

/-- Witness for claim C4 at the concrete address 200. -/
theorem claim_C4_command_codec_witness :
    (200 < 256) ∧
      ((L3GD20SPI.read_single_cmd 200 < 256 ∧
        (L3GD20SPI.read_single_cmd 200).testBit 7 = true ∧
        (L3GD20SPI.read_single_cmd 200).testBit 6 = false ∧
        L3GD20SPI.read_single_cmd 200 % 64 = 200 % 64) ∧
      (L3GD20SPI.read_multi_cmd 200 < 256 ∧
        (L3GD20SPI.read_multi_cmd 200).testBit 7 = true ∧
        (L3GD20SPI.read_multi_cmd 200).testBit 6 = true ∧
        L3GD20SPI.read_multi_cmd 200 % 64 = 200 % 64) ∧
      (L3GD20SPI.write_single_cmd 200 < 256 ∧
        (L3GD20SPI.write_single_cmd 200).testBit 7 = false ∧
        (L3GD20SPI.write_single_cmd 200).testBit 6 = false ∧
        L3GD20SPI.write_single_cmd 200 % 64 = 200 % 64)) :=
  ⟨by decide, claim_C4_command_codec 200 (by decide)⟩

/-- Claim C9: for an address already in the six-bit range, encoding into a
command byte and masking the address bits back out is the identity, for all
three intents. -/
theorem claim_C9_roundtrip :
    ∀ a < 64,
      L3GD20SPI.read_single_cmd a &&& L3GD20SPI.REG_ADDR_MASK = a ∧
      L3GD20SPI.read_multi_cmd a &&& L3GD20SPI.REG_ADDR_MASK = a ∧
      L3GD20SPI.write_single_cmd a &&& L3GD20SPI.REG_ADDR_MASK = a := by
  decide

/-- Witness for claim C9 at the concrete address 42. -/
theorem claim_C9_roundtrip_witness :
    (42 < 64) ∧
      (L3GD20SPI.read_single_cmd 42 &&& L3GD20SPI.REG_ADDR_MASK = 42 ∧
      L3GD20SPI.read_multi_cmd 42 &&& L3GD20SPI.REG_ADDR_MASK = 42 ∧
      L3GD20SPI.write_single_cmd 42 &&& L3GD20SPI.REG_ADDR_MASK = 42) :=
  ⟨by decide, claim_C9_roundtrip 42 (by decide)⟩

/-- Claim C5: data_raw always issues exactly one bus transfer whose transmit
buffer has length 9 (one command byte plus eight zero bytes), regardless of the
status-bit contents, and on success decodes the eight reply bytes in the exact
order temperature, status, X-low, X-high, Y-low, Y-high, Z-low, Z-high. -/
theorem claim_C5_data_raw {ε : Type} (transfer : List Nat → Except ε (List Nat)) :
    (L3GD20SPI.data_raw transfer).sent =
      [[L3GD20SPI.read_multi_cmd L3GD20SPI.TEMPERATURE_ADDR, 0, 0, 0, 0, 0, 0, 0, 0]] ∧
    (L3GD20SPI.data_raw transfer).sent.map List.length = [9] ∧
    (∀ r,
      transfer [L3GD20SPI.read_multi_cmd L3GD20SPI.TEMPERATURE_ADDR, 0, 0, 0, 0, 0, 0, 0, 0] =
        Except.ok r →
      (L3GD20SPI.data_raw transfer).result =
        Except.ok (SensorData.new (r.getD 1 0 % 256)
          (i16FromBytes (r.getD 3 0) (r.getD 4 0))
          (i16FromBytes (r.getD 5 0) (r.getD 6 0))
          (i16FromBytes (r.getD 7 0) (r.getD 8 0))
          (StatusRegister.from_bits (r.getD 2 0)))) := by
  refine ⟨?_, ?_, ?_⟩
  · unfold L3GD20SPI.data_raw
    cases transfer [L3GD20SPI.read_multi_cmd L3GD20SPI.TEMPERATURE_ADDR, 0, 0, 0, 0, 0, 0, 0, 0] <;>
      rfl
  · unfold L3GD20SPI.data_raw
    cases transfer [L3GD20SPI.read_multi_cmd L3GD20SPI.TEMPERATURE_ADDR, 0, 0, 0, 0, 0, 0, 0, 0] <;>
      rfl
  · intro r hr
    unfold L3GD20SPI.data_raw
    rw [hr]

/-- Witness for claim C5: a transfer oracle answering with the concrete reply
bytes 5, 1, 2, 3, 4, 5, 6, 7, 8. -/
theorem claim_C5_data_raw_witness :
    (L3GD20SPI.data_raw (fun _ => (Except.ok [5, 1, 2, 3, 4, 5, 6, 7, 8] : Except Unit (List Nat)))).result =
      Except.ok (SensorData.new 1 (i16FromBytes 3 4) (i16FromBytes 5 6) (i16FromBytes 7 8)
        (StatusRegister.from_bits 2)) := by
  have h := (claim_C5_data_raw
    (fun _ => (Except.ok [5, 1, 2, 3, 4, 5, 6, 7, 8] : Except Unit (List Nat)))).2.2
    [5, 1, 2, 3, 4, 5, 6, 7, 8] rfl
  simpa using h

/-- Claim C6: xyz_raw assembles each signed 16-bit axis value from its low and
high reply bytes in that fixed order per axis; in particular the reply bytes
0x34, 0x12, 0, 0, 0, 0 decode to x = 0x1234, y = 0, z = 0. -/
theorem claim_C6_xyz_raw :
    (∀ {ε : Type} (transfer : List Nat → Except ε (List Nat)) (r : List Nat),
      transfer [L3GD20SPI.read_multi_cmd L3GD20SPI.OUT_X_LOW_ADDR, 0, 0, 0, 0, 0, 0] =
        Except.ok r →
      (L3GD20SPI.xyz_raw transfer).result =
        Except.ok (I16x3.new (i16FromBytes (r.getD 1 0) (r.getD 2 0))
          (i16FromBytes (r.getD 3 0) (r.getD 4 0))
          (i16FromBytes (r.getD 5 0) (r.getD 6 0)))) ∧
    (L3GD20SPI.xyz_raw
      (fun _ => (Except.ok [0, 0x34, 0x12, 0, 0, 0, 0] : Except Unit (List Nat)))).result =
      Except.ok (I16x3.new 0x1234 0 0) := by
  constructor
  · intro ε transfer r hr
    unfold L3GD20SPI.xyz_raw
    rw [hr]
  · rfl

/-- Witness for claim C6: the universally quantified part applied to a transfer
oracle answering with the reply bytes 1, 2, 3, 4, 5, 6. -/
theorem claim_C6_xyz_raw_witness :
    (L3GD20SPI.xyz_raw (fun _ => (Except.ok [7, 1, 2, 3, 4, 5, 6] : Except Unit (List Nat)))).result =
      Except.ok (I16x3.new (i16FromBytes 1 2) (i16FromBytes 3 4) (i16FromBytes 5 6)) := by
  have h := claim_C6_xyz_raw.1
    (fun _ => (Except.ok [7, 1, 2, 3, 4, 5, 6] : Except Unit (List Nat)))
    [7, 1, 2, 3, 4, 5, 6] rfl
  simpa using h

/-- Claim C7: for read_register, write_register and both burst reads, a failing
bus transfer propagates the transport error to the caller verbatim, exactly one
transfer is attempted (no retry, no local recovery), and the chip-select guard
is still released exactly once on that error path. -/
theorem claim_C7_error_path {ε : Type} (transfer : List Nat → Except ε (List Nat))
    (address byte : Nat) (e : ε) :
    (transfer [L3GD20SPI.read_single_cmd address, 0] = Except.error e →
      (L3GD20SPI.read_register transfer address).result = Except.error e ∧
      (L3GD20SPI.read_register transfer address).sent.length = 1 ∧
      (L3GD20SPI.read_register transfer address).cs =
        [L3GD20SPI.CsEvent.select, L3GD20SPI.CsEvent.deselect]) ∧
    (transfer [L3GD20SPI.write_single_cmd address, byte] = Except.error e →
      (L3GD20SPI.write_register transfer address byte).result = Except.error e ∧
      (L3GD20SPI.write_register transfer address byte).sent.length = 1 ∧
      (L3GD20SPI.write_register transfer address byte).cs =
        [L3GD20SPI.CsEvent.select, L3GD20SPI.CsEvent.deselect]) ∧
    (transfer [L3GD20SPI.read_multi_cmd L3GD20SPI.OUT_X_LOW_ADDR, 0, 0, 0, 0, 0, 0] =
        Except.error e →
      (L3GD20SPI.xyz_raw transfer).result = Except.error e ∧
      (L3GD20SPI.xyz_raw transfer).sent.length = 1 ∧
      (L3GD20SPI.xyz_raw transfer).cs =
        [L3GD20SPI.CsEvent.select, L3GD20SPI.CsEvent.deselect]) ∧
    (transfer [L3GD20SPI.read_multi_cmd L3GD20SPI.TEMPERATURE_ADDR, 0, 0, 0, 0, 0, 0, 0, 0] =
        Except.error e →
      (L3GD20SPI.data_raw transfer).result = Except.error e ∧
      (L3GD20SPI.data_raw transfer).sent.length = 1 ∧
      (L3GD20SPI.data_raw transfer).cs =
        [L3GD20SPI.CsEvent.select, L3GD20SPI.CsEvent.deselect]) := by
  refine ⟨?_, ?_, ?_, ?_⟩ <;> intro h
  · unfold L3GD20SPI.read_register
    rw [h]
    exact ⟨rfl, rfl, rfl⟩
  · unfold L3GD20SPI.write_register
    rw [h]
    exact ⟨rfl, rfl, rfl⟩
  · unfold L3GD20SPI.xyz_raw
    rw [h]
    exact ⟨rfl, rfl, rfl⟩
  · unfold L3GD20SPI.data_raw
    rw [h]
    exact ⟨rfl, rfl, rfl⟩

/-- Witness for claim C7: a transfer oracle that always fails, at address 5 and
payload byte 9. -/
theorem claim_C7_error_path_witness :
    ((L3GD20SPI.read_register (fun _ => (Except.error () : Except Unit (List Nat))) 5).result =
        Except.error () ∧
      (L3GD20SPI.read_register (fun _ => (Except.error () : Except Unit (List Nat))) 5).cs =
        [L3GD20SPI.CsEvent.select, L3GD20SPI.CsEvent.deselect]) ∧
    ((L3GD20SPI.write_register (fun _ => (Except.error () : Except Unit (List Nat))) 5 9).result =
        Except.error () ∧
      (L3GD20SPI.write_register (fun _ => (Except.error () : Except Unit (List Nat))) 5 9).cs =
        [L3GD20SPI.CsEvent.select, L3GD20SPI.CsEvent.deselect]) ∧
    ((L3GD20SPI.xyz_raw (fun _ => (Except.error () : Except Unit (List Nat)))).result =
        Except.error () ∧
      (L3GD20SPI.xyz_raw (fun _ => (Except.error () : Except Unit (List Nat)))).cs =
        [L3GD20SPI.CsEvent.select, L3GD20SPI.CsEvent.deselect]) ∧
    ((L3GD20SPI.data_raw (fun _ => (Except.error () : Except Unit (List Nat)))).result =
        Except.error () ∧
      (L3GD20SPI.data_raw (fun _ => (Except.error () : Except Unit (List Nat)))).cs =
        [L3GD20SPI.CsEvent.select, L3GD20SPI.CsEvent.deselect]) := by
  have h := claim_C7_error_path (fun _ => (Except.error () : Except Unit (List Nat))) 5 9 ()
  exact ⟨⟨(h.1 rfl).1, (h.1 rfl).2.2⟩, ⟨(h.2.1 rfl).1, (h.2.1 rfl).2.2⟩,
    ⟨(h.2.2.1 rfl).1, (h.2.2.1 rfl).2.2⟩, ⟨(h.2.2.2 rfl).1, (h.2.2.2 rfl).2.2⟩⟩

/-- Claim C10: identify returns Ok true exactly when the ident field of the
WHO_AM_I reply byte equals 0b11010100 and Ok false for every other value; an
identification mismatch is reported through the success channel, while the
error channel carries only propagated transport errors. -/
theorem claim_C10_identify {ε : Type} (transfer : List Nat → Except ε (List Nat)) :
    (∀ r, transfer [L3GD20SPI.read_single_cmd L3GD20SPI.WHO_AM_I_ADDR, 0] = Except.ok r →
      (((L3GD20SPI.identify transfer).result = Except.ok true ↔
          r.getD 1 0 % 256 = 0b11010100) ∧
        ((L3GD20SPI.identify transfer).result = Except.ok false ↔
          r.getD 1 0 % 256 ≠ 0b11010100))) ∧
    (∀ e, transfer [L3GD20SPI.read_single_cmd L3GD20SPI.WHO_AM_I_ADDR, 0] = Except.error e →
      (L3GD20SPI.identify transfer).result = Except.error e) := by
  constructor
  · intro r hr
    unfold L3GD20SPI.identify L3GD20SPI.read_register
    rw [hr]
    by_cases hb : r.getD 1 0 % 256 = 0b11010100
    · simp only [List.getD_eq_getElem?_getD] at hb
      simp [hb]
    · simp only [List.getD_eq_getElem?_getD] at hb
      simp [hb]
  · intro e he
    unfold L3GD20SPI.identify L3GD20SPI.read_register
    rw [he]

/-- Witness for claim C10: a transfer oracle answering with the correct ident
byte 0b11010100 yields Ok true, and one answering 0 yields Ok false. -/
theorem claim_C10_identify_witness :
    (L3GD20SPI.identify (fun _ => (Except.ok [0, 0b11010100] : Except Unit (List Nat)))).result =
        Except.ok true ∧
      (L3GD20SPI.identify (fun _ => (Except.ok [0, 0] : Except Unit (List Nat)))).result =
        Except.ok false := by
  constructor
  · exact ((claim_C10_identify
      (fun _ => (Except.ok [0, 0b11010100] : Except Unit (List Nat)))).1
        [0, 0b11010100] rfl).1.mpr (by decide)
  · exact ((claim_C10_identify
      (fun _ => (Except.ok [0, 0] : Except Unit (List Nat)))).1
        [0, 0] rfl).2.mpr (by decide)

/-- Claim C8 counterexample: with the source literals taken exactly, the rate
noise density at full scale 250 dps, narrowest bandwidth and 95 Hz data rate
(raw temperature 25) is not exactly 0.03 times the square root of 12.5: the
source carries the decimal literal 3.5355339059327378, whose square exceeds
12.5. -/
theorem claim_C8_sqrt_counterexample :
    ((characteristics Sensitivity.D250 OutputDataRate.Hz95 Bandwidth.Narrowest 25).rate_noise_density : ℝ) ≠
      0.03 * Real.sqrt 12.5 := by
  have hval : (characteristics Sensitivity.D250 OutputDataRate.Hz95
      Bandwidth.Narrowest 25).rate_noise_density = 0.03 * 3.5355339059327378 := rfl
  have hlt : Real.sqrt 12.5 < 3.5355339059327378 := by
    rw [show (12.5 : ℝ) = 25 / 2 by norm_num, Real.sqrt_lt' (by norm_num)]
    norm_num
  intro h
  rw [hval] at h
  push_cast at h
  nlinarith [hlt]

/-- Claim C8 (amended): characteristics at full scale 250 dps, narrowest
bandwidth and 95 Hz data rate yields sensitivity 0.00875 and zero-rate noise
10.0, and its rate noise density is 0.03 times the source literal
3.5355339059327378, which agrees with 0.03 times the square root of 12.5 to
within 10⁻⁹; and for every full-scale setting the temperature-dependent drift
equals coefficient times raw temperature, with coefficient 0.03 for D250 and
D500, 0.04 for D2000 and 0.05 for D2000_11. -/
theorem claim_C8_characteristics :
    (∀ t : Nat,
      (characteristics Sensitivity.D250 OutputDataRate.Hz95 Bandwidth.Narrowest t).sensitivity =
        0.00875 ∧
      (characteristics Sensitivity.D250 OutputDataRate.Hz95 Bandwidth.Narrowest t).zero_rate_noise =
        10 ∧
      (characteristics Sensitivity.D250 OutputDataRate.Hz95 Bandwidth.Narrowest t).rate_noise_density =
        0.03 * 3.5355339059327378 ∧
      |((characteristics Sensitivity.D250 OutputDataRate.Hz95 Bandwidth.Narrowest t).rate_noise_density : ℝ) -
          0.03 * Real.sqrt 12.5| < 1 / 10 ^ 9) ∧
    (∀ (fs : Sensitivity) (odr : OutputDataRate) (bw : Bandwidth) (t : Nat),
      (characteristics fs odr bw t).zero_rate_level_temp =
        (match fs with
          | Sensitivity.D250 => (0.03 : ℚ)
          | Sensitivity.D500 => 0.03
          | Sensitivity.D2000 => 0.04
          | Sensitivity.D2000_11 => 0.05) * t) := by
  constructor
  · intro t
    refine ⟨by norm_num [characteristics], by norm_num [characteristics],
      by norm_num [characteristics], ?_⟩
    have hval : (characteristics Sensitivity.D250 OutputDataRate.Hz95
        Bandwidth.Narrowest t).rate_noise_density = 0.03 * 3.5355339059327378 := rfl
    have hlo : (3.5355339059 : ℝ) < Real.sqrt 12.5 := by
      rw [show (12.5 : ℝ) = 25 / 2 by norm_num, Real.lt_sqrt (by norm_num)]
      norm_num
    have hhi : Real.sqrt 12.5 < 3.535533906 := by
      rw [show (12.5 : ℝ) = 25 / 2 by norm_num, Real.sqrt_lt' (by norm_num)]
      norm_num
    rw [hval]
    push_cast
    rw [abs_sub_lt_iff]
    constructor <;> nlinarith [hlo, hhi]
  · intro fs odr bw t
    cases fs <;> norm_num [characteristics]

end L3gd20
